import Mathlib

/-!
Verification of the patent-scrape repository: a shallow embedding of its two
source files, the persistent Express server (src/unnamed/part_000) and the
Netlify serverless function (src/netlify/functions/search.js), together with
theorems settling the specification claims about them.

External effects (the USPTO HTTP call, the Gemini HTTP call, Math.random,
new Date(), JSON.parse of AI output) are passed in as explicit oracle
arguments, so every definition is a pure, executable function of its inputs.
-/

/-! ## JavaScript value helpers

JavaScript treats `undefined` and the empty string as falsy.  An absent
field is modelled as `none`; `jsTruthy` and `jsOr` model the truthiness
test and the `a || b` fallback operator on such fields. -/

/-- Truthiness of an optional JS string: `undefined` and `""` are falsy. -/
def jsTruthy : Option String → Bool
  | none => false
  | some s => s ≠ ""

/-- The JS expression `a || b` where `a` is a possibly-absent string and `b`
a present string. -/
def jsOr (a : Option String) (b : String) : String :=
  match a with
  | none => b
  | some s => if s = "" then b else s

/-- The JS expression `a || b` where both operands are possibly-absent
strings, used to chain fallbacks. -/
def jsOrO (a b : Option String) : Option String :=
  match a with
  | none => b
  | some s => if s = "" then b else some s

/-- The JS expression `a || b` on two present strings (`""` is falsy). -/
def jsOrStr (a b : String) : String :=
  if a = "" then b else a

/-- Whitespace as removed by the JS `trim` method (the characters that can
occur in the string fields at hand). -/
def isJsWhitespace (c : Char) : Bool :=
  c = ' ' || c = '\t' || c = '\n' || c = '\r'

/-- The JS call `s.trim()`: leading and trailing whitespace removed. -/
def jsTrim (s : String) : String :=
  ⟨((s.data.dropWhile isJsWhitespace).reverse.dropWhile isJsWhitespace).reverse⟩

/-- The JS call `s.substring(b, e)` (for `b ≤ e`, the only way the sources
use it): the characters from index `b` up to, excluding, index `e`. -/
def jsSubstring (s : String) (b e : Nat) : String :=
  ⟨(s.data.drop b).take (e - b)⟩

/-- The opening brace character, U+007B. -/
def lbrace : Char := Char.ofNat 123

/-- The closing brace character, U+007D. -/
def rbrace : Char := Char.ofNat 125

/-! ## Netlify serverless variant (src/netlify/functions/search.js) -/

namespace Netlify

/-- One entry of `inventor.correspondenceAddressBag` as read by the
normalization code. -/
structure CorrespondenceAddress where
  cityName : Option String
  geographicRegionName : Option String
deriving DecidableEq

/-- One entry of `metadata.inventorBag`. -/
structure UpstreamInventor where
  firstName : Option String
  lastName : Option String
  correspondenceAddressBag : List CorrespondenceAddress
deriving DecidableEq

/-- One entry of `metadata.applicantBag`. -/
structure UpstreamApplicant where
  applicantNameText : Option String
deriving DecidableEq

/-- The fields of `patent.applicationMetaData` read by `getUSPTOData`. -/
structure UpstreamMeta where
  inventionTitle : Option String
  inventorBag : Option (List UpstreamInventor)
  applicantBag : Option (List UpstreamApplicant)
  publicationDate : Option String
  filingDate : Option String
  applicationStatusDescriptionText : Option String
  uspcSymbolText : Option String
  cpcClassificationBag : Option (List String)
deriving DecidableEq

/-- The `applicationMetaData` object of an upstream entry with every field
absent, i.e. the `{}` default of `patent.applicationMetaData || {}`. -/
def emptyMeta : UpstreamMeta :=
  ⟨none, none, none, none, none, none, none, none⟩

/-- The fields of `patent.patentApplicationPublication` read by
`getUSPTOData`. -/
structure UpstreamPublication where
  abstract : Option String
  publicationDate : Option String
deriving DecidableEq

/-- The `{}` default of `patent.patentApplicationPublication || {}`. -/
def emptyPublication : UpstreamPublication := ⟨none, none⟩

/-- The fields of `patent.patentGrant` read by `getUSPTOData`. -/
structure UpstreamGrant where
  abstract : Option String
deriving DecidableEq

/-- The `{}` default of `patent.patentGrant || {}`. -/
def emptyGrant : UpstreamGrant := ⟨none⟩

/-- One element of the upstream `patentFileWrapperDataBag` list. -/
structure UpstreamEntry where
  applicationNumberText : Option String
  applicationMetaData : Option UpstreamMeta
  patentApplicationPublication : Option UpstreamPublication
  patentGrant : Option UpstreamGrant
deriving DecidableEq

/-- An upstream entry with every optional part absent. -/
def emptyEntry : UpstreamEntry := ⟨none, none, none, none⟩

/-- A detailed inventor `{ name, location }` as pushed onto `inventors`. -/
structure DetailedInventor where
  name : String
  location : String
deriving DecidableEq

/-- A detailed assignee `\x7b name, type: Organization \x7d` as pushed onto
`assignees`. -/
structure DetailedAssignee where
  name : String
  type : String
deriving DecidableEq

/-- The `classification` sub-object of a normalized record. -/
structure Classification where
  primary : String
  ipc : String
deriving DecidableEq

/-- The normalized patent record built by the serverless `getUSPTOData`. -/
structure PatentRecord where
  patent_id : String
  publication_number : String
  title : String
  inventor : String
  assignee : String
  publication_date : String
  filing_date : String
  snippet : String
  abstract : String
  status : String
  classification : Classification
  inventors_detailed : List DetailedInventor
  assignees_detailed : List DetailedAssignee
deriving DecidableEq

/-- The display name of one upstream inventor:
`(firstName + " " + lastName).trim() || "Unknown"`. -/
def inventorName (inv : UpstreamInventor) : String :=
  jsOrStr (jsTrim (jsOr inv.firstName "" ++ " " ++ jsOr inv.lastName "")) "Unknown"

/-- The display location of one upstream inventor: the city and region of the
first correspondence address when the bag is non-empty, else `"Unknown"`. -/
def inventorLocation (inv : UpstreamInventor) : String :=
  match inv.correspondenceAddressBag with
  | [] => "Unknown"
  | a :: _ => jsTrim (jsOr a.cityName "" ++ ", " ++ jsOr a.geographicRegionName "")

/-- The `inventors` list accumulated from `metadata.inventorBag`. -/
def inventorsOf (meta : UpstreamMeta) : List DetailedInventor :=
  match meta.inventorBag with
  | none => []
  | some bag => bag.map (fun inv => ⟨inventorName inv, inventorLocation inv⟩)

/-- The `assignees` list accumulated from `metadata.applicantBag`: one entry
per applicant with a truthy `applicantNameText`. -/
def assigneesOf (meta : UpstreamMeta) : List DetailedAssignee :=
  match meta.applicantBag with
  | none => []
  | some bag =>
      (bag.filter (fun a => jsTruthy a.applicantNameText)).map
        (fun a => ⟨jsOr a.applicantNameText "", "Organization"⟩)

/-- The abstract selection: the first truthy one of
`publication.abstract`, `grant.abstract`, `metadata.inventionTitle`,
defaulting to the placeholder. -/
def abstractOf (meta : UpstreamMeta) (pub : UpstreamPublication)
    (grant : UpstreamGrant) : String :=
  if jsTruthy pub.abstract then jsOr pub.abstract ""
  else if jsTruthy grant.abstract then jsOr grant.abstract ""
  else if jsTruthy meta.inventionTitle then jsOr meta.inventionTitle ""
  else "Abstract not available"

/-- The normalization of one upstream entry performed inside the serverless
`getUSPTOData`; `tempId` stands for the `Math.random().toString(36)` suffix
used when `applicationNumberText` is absent. -/
def normalizeEntry (tempId : String) (e : UpstreamEntry) : PatentRecord :=
  let metadata := e.applicationMetaData.getD emptyMeta
  let publication := e.patentApplicationPublication.getD emptyPublication
  let grant := e.patentGrant.getD emptyGrant
  let inventors := inventorsOf metadata
  let assignees := assigneesOf metadata
  let abst := abstractOf metadata publication grant
  { patent_id := jsOr e.applicationNumberText ("temp-" ++ tempId)
    publication_number := jsOr e.applicationNumberText "N/A"
    title := jsOr metadata.inventionTitle "Title not available"
    inventor :=
      if inventors.length > 0 then
        String.intercalate ", " (inventors.map (fun i => i.name))
      else "Unknown"
    assignee :=
      if assignees.length > 0 then
        String.intercalate ", " (assignees.map (fun a => a.name))
      else "Unknown"
    publication_date :=
      jsOr (jsOrO metadata.publicationDate
        (jsOrO publication.publicationDate metadata.filingDate)) "Unknown"
    filing_date := jsOr metadata.filingDate "Unknown"
    snippet :=
      jsSubstring abst 0 200 ++ (if abst.length > 200 then "..." else "")
    abstract := abst
    status := jsOr metadata.applicationStatusDescriptionText "Unknown"
    classification :=
      { primary := jsOr metadata.uspcSymbolText "Unknown"
        ipc :=
          match metadata.cpcClassificationBag with
          | some (c :: _) => c
          | _ => "Unknown" }
    inventors_detailed := inventors
    assignees_detailed := assignees }

/-- One categorical filter of the upstream search payload. -/
structure FilterSpec where
  name : String
  value : List String
deriving DecidableEq

/-- One range filter of the upstream search payload. -/
structure RangeFilter where
  field : String
  valueFrom : String
  valueTo : String
deriving DecidableEq

/-- The pagination object of the upstream search payload. -/
structure Pagination where
  offset : Nat
  limit : Nat
deriving DecidableEq

/-- One sort directive of the upstream search payload. -/
structure SortSpec where
  field : String
  order : String
deriving DecidableEq

/-- The POST body sent to the upstream patent-search service by the
serverless `getUSPTOData`. -/
structure SearchPayload where
  q : String
  filters : List FilterSpec
  rangeFilters : List RangeFilter
  pagination : Pagination
  sort : List SortSpec
  fields : List String
deriving DecidableEq

/-- Construction of the upstream search payload (`searchPayload` in the
source); `today` stands for `new Date().toISOString().split("T")[0]`. -/
def searchPayload (keywords : String) (maxResults : Nat) (showApproved : Bool)
    (today : String) : SearchPayload :=
  { q := keywords
    filters :=
      [⟨"applicationMetaData.applicationTypeLabelName", ["Utility"]⟩,
        if showApproved then
          ⟨"applicationMetaData.publicationCategoryBag", ["Granted/Issued"]⟩
        else
          ⟨"applicationMetaData.publicationCategoryBag",
            ["Pre-Grant Publications - PGPub"]⟩]
    rangeFilters := [⟨"applicationMetaData.filingDate", "2020-01-01", today⟩]
    pagination := ⟨0, min maxResults 25⟩
    sort := [⟨"applicationMetaData.filingDate", "Desc"⟩]
    fields :=
      ["applicationNumberText", "applicationMetaData",
        "patentApplicationPublication", "patentGrant"] }

/-- Outcome of the single `fetch` to the upstream service: a rejected
promise, a non-2xx response, or a JSON body whose
`patentFileWrapperDataBag` may be absent. -/
inductive FetchOutcome where
  | fail (msg : String)
  | httpError (status : Nat) (statusText : String)
  | ok (patentFileWrapperDataBag : Option (List UpstreamEntry))
deriving DecidableEq

/-- The serverless `getUSPTOData`: any fetch failure or non-ok status is
caught and rethrown wrapped in `Failed to fetch patent data:`; a missing
bag defaults to the empty list; each entry is normalized.  `tempIds i` is
the random suffix used for the i-th entry when its id is absent. -/
def getUSPTOData (fetch : FetchOutcome) (tempIds : Nat → String) :
    Except String (List PatentRecord) :=
  match fetch with
  | .fail msg => .error ("Failed to fetch patent data: " ++ msg)
  | .httpError status statusText =>
      .error ("Failed to fetch patent data: USPTO API error: " ++
        toString status ++ " " ++ statusText)
  | .ok bag => .ok ((bag.getD []).mapIdx (fun i e => normalizeEntry (tempIds i) e))

/-! ### Structured AI analysis (generatePracticalAnalysis) -/

/-- One entry of the `techBreakdown` list. -/
structure TechBreakdownItem where
  mechanism : String
  howItWorks : String
  keyInnovation : String
deriving DecidableEq

/-- One entry of `competitorActivity.topPlayers`. -/
structure TopPlayer where
  company : String
  focus : String
  filingTrend : String
deriving DecidableEq

/-- The `competitorActivity` sub-object. -/
structure CompetitorActivity where
  topPlayers : List TopPlayer
  filingPatterns : String
deriving DecidableEq

/-- One entry of the `practicalUses` list. -/
structure PracticalUse where
  application : String
  marketReady : String
  obstacles : String
deriving DecidableEq

/-- The structured analysis object shape shared by the three non-parsed
return paths of `generatePracticalAnalysis`: the required schema keys plus
the optional `rawAnalysis` and `error` keys. -/
structure PracticalAnalysis where
  techBreakdown : List TechBreakdownItem
  competitorActivity : CompetitorActivity
  practicalUses : List PracticalUse
  techMaturity : String
  interestingFindings : List String
  patentStrength : String
  rawAnalysis : Option String
  error : Option String
deriving DecidableEq

/-- The result of `generatePracticalAnalysis`: either the JSON value parsed
out of the AI text (kept opaque, identified by the matched substring), or
one of the structured objects built by the function itself. -/
inductive GenResult where
  | parsedJson (raw : String)
  | obj (o : PracticalAnalysis)
deriving DecidableEq

/-- The object returned when the AI key is absent or no patents were
passed in. -/
def noDataAnalysis : PracticalAnalysis :=
  { techBreakdown := []
    competitorActivity := ⟨[], "No data available"⟩
    practicalUses := []
    techMaturity := "Unknown"
    interestingFindings := []
    patentStrength := "Assessment needed"
    rawAnalysis := none
    error := none }

/-- The object returned from the catch block when the AI call itself
fails with message `msg`. -/
def errorAnalysis (msg : String) : PracticalAnalysis :=
  { techBreakdown := []
    competitorActivity := ⟨[], "Analysis failed"⟩
    practicalUses := []
    techMaturity := "Analysis failed"
    interestingFindings := ["Analysis error: " ++ msg]
    patentStrength := "Could not assess"
    rawAnalysis := none
    error := some msg }

/-- The fallback object built when the AI response text could not be parsed
as JSON: every required key is filled with a fixed or input-derived value
and the raw text is kept under `rawAnalysis`. -/
def parseFallback (text searchTerm : String) (patents : List PatentRecord) :
    PracticalAnalysis :=
  { techBreakdown :=
      [⟨"Technology Analysis", jsSubstring text 0 300, "See detailed analysis"⟩]
    competitorActivity :=
      ⟨(patents.take 3).map (fun p =>
          ⟨jsOrStr p.assignee "Unknown", jsSubstring p.title 0 50 ++ "...",
            "Analysis needed"⟩),
        "Detailed analysis available below"⟩
    practicalUses :=
      [⟨searchTerm ++ " applications", "Assessment in progress",
        "See analysis details"⟩]
    techMaturity := "Analysis in progress"
    interestingFindings := ["Detailed analysis available"]
    patentStrength := "Requires claim review"
    rawAnalysis := some text
    error := none }

/-- The index of the last occurrence of `c` in `cs`, if any. -/
def lastIdxOf (cs : List Char) (c : Char) : Option Nat :=
  match cs.reverse.findIdx? (· = c) with
  | none => none
  | some k => some (cs.length - 1 - k)

/-- The JS call `text.match(...)` against the greedy brace regex used by the
source: the (unique) match runs from the first opening brace to the last
closing brace, provided the latter comes after the former. -/
def braceMatch (text : String) : Option String :=
  match text.data.findIdx? (· = lbrace) with
  | none => none
  | some i =>
      match lastIdxOf text.data rbrace with
      | none => none
      | some j =>
          if i < j then some ⟨(text.data.drop i).take (j + 1 - i)⟩ else none

/-- `generatePracticalAnalysis`: with the key present and a non-empty record
list, the AI is called once (`genOutcome` is its outcome; `.error` covers
every throw inside the try block); a brace-delimited substring of the
response that `JSON.parse` accepts (`parse` is the oracle for acceptance) is
returned as the parsed value, otherwise the fallback object is built. -/
def generatePracticalAnalysis (geminiKey : Bool)
    (genOutcome : Except String String) (parse : String → Bool)
    (patents : List PatentRecord) (searchTerm : String) : GenResult :=
  if !geminiKey || patents.isEmpty then .obj noDataAnalysis
  else
    match genOutcome with
    | .error msg => .obj (errorAnalysis msg)
    | .ok text =>
        match braceMatch text with
        | some m =>
            if parse m then .parsedJson m
            else .obj (parseFallback text searchTerm patents)
        | none => .obj (parseFallback text searchTerm patents)

/-! ### The serverless handler -/

/-- The fixed CORS/content-type headers attached to every response. -/
def corsHeaders : List (String × String) :=
  [("Access-Control-Allow-Origin", "*"),
    ("Access-Control-Allow-Headers", "Content-Type"),
    ("Access-Control-Allow-Methods", "POST, OPTIONS"),
    ("Content-Type", "application/json")]

/-- The request body after `JSON.parse` and destructuring with defaults
(`maxResults = 20`, `showApproved = false`). -/
structure ReqBody where
  keywords : Option String
  maxResults : Nat
  showApproved : Bool
deriving DecidableEq

/-- The `metadata` object of a successful response. -/
structure ResponseMetadata where
  searchTerm : String
  resultsCount : Nat
  timestamp : String
  dataSource : String
  patentType : String
deriving DecidableEq

/-- The value passed to `JSON.stringify` as the response body. -/
inductive ResponseBody where
  | empty
  | errObj (error : String)
  | successObj (patents : List PatentRecord) (insights : Option GenResult)
      (metadata : ResponseMetadata)
deriving DecidableEq

/-- A serverless HTTP response. -/
structure HttpResponse where
  statusCode : Nat
  headers : List (String × String)
  body : ResponseBody
deriving DecidableEq

/-- The serverless handler (`exports.handler`).  Oracles: `parsedBody` is
the outcome of `JSON.parse(event.body)` plus destructuring, `fetch` the
upstream call outcome, `genOutcome`/`parse` the AI call and JSON-parse
outcomes, `tempIds` the per-entry random suffixes, `timestamp` the value of
`new Date().toISOString()`.  Besides the response it returns how many
upstream fetches and outbound AI calls were issued. -/
def handler (httpMethod : String) (parsedBody : Except String ReqBody)
    (usptoKey geminiKey : Bool) (fetch : FetchOutcome) (tempIds : Nat → String)
    (timestamp : String) (genOutcome : Except String String)
    (parse : String → Bool) : HttpResponse × Nat × Nat :=
  if httpMethod = "OPTIONS" then (⟨200, corsHeaders, .empty⟩, 0, 0)
  else if httpMethod ≠ "POST" then
    (⟨405, corsHeaders, .errObj "Method not allowed"⟩, 0, 0)
  else
    match parsedBody with
    | .error msg => (⟨500, corsHeaders, .errObj ("Search failed: " ++ msg)⟩, 0, 0)
    | .ok body =>
        if !jsTruthy body.keywords || jsTrim (body.keywords.getD "") = "" then
          (⟨400, corsHeaders, .errObj "No keywords provided."⟩, 0, 0)
        else if !usptoKey then
          (⟨500, corsHeaders, .errObj "USPTO API key not configured."⟩, 0, 0)
        else
          match getUSPTOData fetch tempIds with
          | .error msg =>
              (⟨500, corsHeaders, .errObj ("Search failed: " ++ msg)⟩, 1, 0)
          | .ok patents =>
              if patents.length = 0 then
                (⟨404, corsHeaders,
                  .errObj "No patents found for the given keywords."⟩, 1, 0)
              else
                let keywords := body.keywords.getD ""
                let insights :=
                  if geminiKey then
                    some (generatePracticalAnalysis geminiKey genOutcome parse
                      patents keywords)
                  else none
                (⟨200, corsHeaders,
                  .successObj patents insights
                    ⟨keywords, patents.length, timestamp, "uspto",
                      if body.showApproved then "approved" else "new"⟩⟩,
                  1, if geminiKey then 1 else 0)

end Netlify

/-! ## Persistent Express server variant (src/unnamed/part_000) -/

namespace Server

/-- The `metaData.inventorName` field as read by the normalization code: it
may be absent, an array of names, or a plain string value. -/
inductive InventorNameField where
  | absent
  | arr (names : List String)
  | str (s : String)
deriving DecidableEq

/-- The `metaData.assignee` sub-object. -/
structure AssigneeObj where
  name : Option String
deriving DecidableEq

/-- The fields of `patent.applicationMetaData` read by the server
`getUSPTOData`. -/
structure UpstreamMeta where
  inventionTitle : Option String
  inventorName : InventorNameField
  assigneeName : Option String
  assignee : Option AssigneeObj
  filingDate : Option String
  abstractText : Option String
deriving DecidableEq

/-- The `{}` default of `patent.applicationMetaData || {}`. -/
def emptyMeta : UpstreamMeta := ⟨none, .absent, none, none, none, none⟩

/-- One element of the upstream `patentFileWrapperDataBag` list. -/
structure UpstreamEntry where
  applicationNumberText : Option String
  applicationMetaData : Option UpstreamMeta
deriving DecidableEq

/-- The normalized patent record built by the server `getUSPTOData`. -/
structure PatentRecord where
  patent_id : String
  publication_number : String
  title : String
  inventor : String
  assignee : String
  publication_date : String
  snippet : String
deriving DecidableEq

/-- The `inventors` extraction: a joined string when the field is an array
(arrays are truthy, even empty ones), the value itself when it is a truthy
non-array, and `"Unknown"` otherwise. -/
def inventorsOf : InventorNameField → String
  | .absent => "Unknown"
  | .arr names => String.intercalate ", " names
  | .str s => if s = "" then "Unknown" else s

/-- The `assignee` extraction: `metaData.assigneeName` when truthy, else
`metaData.assignee.name` when that path is truthy, else `"Unknown"`. -/
def assigneeOf (metaData : UpstreamMeta) : String :=
  if jsTruthy metaData.assigneeName then jsOr metaData.assigneeName ""
  else
    match metaData.assignee with
    | some a => if jsTruthy a.name then jsOr a.name "" else "Unknown"
    | none => "Unknown"

/-- The normalization of one upstream entry performed inside the server
`getUSPTOData`; `rand` stands for `Math.floor(Math.random() * 10000000)`
and `today` for `new Date().toISOString().split("T")[0]`, the fallback the
source uses for a missing filing date. -/
def normalizeEntry (rand today : String) (e : UpstreamEntry) : PatentRecord :=
  let metaData := e.applicationMetaData.getD emptyMeta
  { patent_id := jsOr e.applicationNumberText ("US" ++ rand)
    publication_number := jsOr e.applicationNumberText "N/A"
    title := jsOr metaData.inventionTitle "Untitled Patent"
    inventor := inventorsOf metaData.inventorName
    assignee := assigneeOf metaData
    publication_date := jsOr metaData.filingDate today
    snippet := jsOr metaData.abstractText "No abstract available." }

/-- The ways the `axios.get` inside the server `getUSPTOData` can fail:
a timeout (`error.code === ECONNABORTED`), an HTTP error response carrying
a status, an optional `data.message` and a `statusText`, a request that got
no response at all, or anything else. -/
inductive AxiosFailure where
  | timeout
  | httpStatus (status : Nat) (message : Option String) (statusText : String)
  | noResponse
  | other
deriving DecidableEq

/-- The `params` object of the upstream GET request issued by the server
`getUSPTOData`. -/
structure SearchParams where
  q : String
  limit : Nat
deriving DecidableEq

/-- Construction of the upstream GET parameters: a fielded wildcard query
and the caller-requested limit, passed through without any clamping. -/
def searchParams (keywords : String) (maxResults : Nat) : SearchParams :=
  { q := "applicationMetaData.inventionTitle:" ++ keywords ++
      "* OR applicationMetaData.abstractText:" ++ keywords ++ "*"
    limit := maxResults }

/-- The server `getUSPTOData`: on a successful response whose
`patentFileWrapperDataBag` is present, each entry is normalized; a missing
bag returns `[]`; every failure is caught, logged and also returns `[]` —
this function never throws.  `rands i` is the random id suffix for the
i-th entry. -/
def getUSPTOData (upstream : Except AxiosFailure (Option (List UpstreamEntry)))
    (rands : Nat → String) (today : String) : List PatentRecord :=
  match upstream with
  | .ok (some bag) => bag.mapIdx (fun i e => normalizeEntry (rands i) today e)
  | .ok none => []
  | .error _ => []

/-! ### Per-record AI analysis and its memoization cache -/

/-- Backslash-escaping of quote and backslash characters, the part of the
JSON string escaping relevant to record fields. -/
def jsonEscape (s : String) : String :=
  ⟨s.data.foldr
    (fun c acc => if c = '"' ∨ c = '\\' then '\\' :: c :: acc else c :: acc) []⟩

/-- A JSON string literal. -/
def jstr (s : String) : String := "\"" ++ jsonEscape s ++ "\""

/-- The cache key `JSON.stringify(patentData)`: the record serialized as a
JSON object with its keys in insertion order.  (Escapes of control
characters are omitted; the key is only ever compared for equality, and it
is determined by the record.) -/
def cacheKey (p : PatentRecord) : String :=
  ⟨[lbrace]⟩ ++ String.intercalate ","
    [jstr "patent_id" ++ ":" ++ jstr p.patent_id,
      jstr "publication_number" ++ ":" ++ jstr p.publication_number,
      jstr "title" ++ ":" ++ jstr p.title,
      jstr "inventor" ++ ":" ++ jstr p.inventor,
      jstr "assignee" ++ ":" ++ jstr p.assignee,
      jstr "publication_date" ++ ":" ++ jstr p.publication_date,
      jstr "snippet" ++ ":" ++ jstr p.snippet] ++ ⟨[rbrace]⟩

/-- The state of the module-level `analysisCache` Map plus a count of the
outbound Gemini calls issued so far.  The Map is modelled as an association
list onto which `set` conses; `get` returns the most recent binding. -/
structure AIState where
  cache : List (String × String)
  calls : Nat
deriving DecidableEq

/-- `analysisCache.get k` (with `has` its domain test). -/
def lookupCache (cache : List (String × String)) (k : String) : Option String :=
  match cache with
  | [] => none
  | (k2, v) :: rest => if k2 = k then some v else lookupCache rest k

/-- The string returned by `analyzePatentWithAI` when the Gemini key is
absent. -/
def keyMissingMsg : String :=
  "AI analysis unavailable: API key not configured properly."

/-- The string returned by `analyzePatentWithAI` when the Gemini call
throws. -/
def aiUnavailableMsg : String :=
  "AI analysis is temporarily unavailable. Please try again later."

/-- `analyzePatentWithAI`: without the key, a fixed placeholder and no
call; on a cache hit, the cached string and no call; on a miss, one
outbound Gemini call (`gemini n` is the outcome of the n-th outbound call,
`none` meaning it throws) whose successful result is cached, a failure
being caught, turned into a fixed placeholder and NOT cached. -/
def analyzePatentWithAI (geminiKey : Bool) (gemini : Nat → Option String)
    (p : PatentRecord) (st : AIState) : String × AIState :=
  if !geminiKey then (keyMissingMsg, st)
  else
    match lookupCache st.cache (cacheKey p) with
    | some cached => (cached, st)
    | none =>
        match gemini st.calls with
        | some analysis =>
            (analysis, ⟨(cacheKey p, analysis) :: st.cache, st.calls + 1⟩)
        | none => (aiUnavailableMsg, ⟨st.cache, st.calls + 1⟩)

/-! ### The search route -/

/-- The placeholder attached to records beyond the enrichment prefix. -/
def rateLimitMsg : String := "Analysis not performed due to rate limiting."

/-- The per-record placeholder used when the Gemini key is absent. -/
def aiNotConfiguredMsg : String :=
  "AI analysis not configured. Please check your Gemini API key."

/-- The landscape placeholder used when the Gemini key is absent. -/
def landscapeNotConfiguredMsg : String :=
  "Landscape analysis not configured. Please check your Gemini API key."

/-- A record of the response payload: the original record spread into a new
object together with an `analysis` field. -/
structure AnalyzedPatent where
  patent_id : String
  publication_number : String
  title : String
  inventor : String
  assignee : String
  publication_date : String
  snippet : String
  analysis : String
deriving DecidableEq

/-- The spread `... patent` plus `analysis`: a new object with every
upstream-sourced field copied unchanged and the analysis attached. -/
def withAnalysis (p : PatentRecord) (analysis : String) : AnalyzedPatent :=
  { patent_id := p.patent_id
    publication_number := p.publication_number
    title := p.title
    inventor := p.inventor
    assignee := p.assignee
    publication_date := p.publication_date
    snippet := p.snippet
    analysis := analysis }

/-- The enrichment fan-out of the search route when the Gemini key is
present: `Promise.all` over `slice(0, 3)` attaching to each record the
value its `analyzePatentWithAI` call resolves with (`ai p`; that function
never rejects, so the per-record catch branch is unreachable), followed by
`slice(3)` attaching the fixed rate-limit placeholder. -/
def enrichPatents (ai : PatentRecord → String) (ps : List PatentRecord) :
    List AnalyzedPatent :=
  (ps.take 3).map (fun p => withAnalysis p (ai p)) ++
    (ps.drop 3).map (fun p => withAnalysis p rateLimitMsg)

/-- The status code and error message produced by the catch block of the
search route for a given failure.  (In the model as in the source this
classification is dead code for upstream failures: `getUSPTOData` catches
them itself and returns `[]`, so nothing upstream-related ever reaches
this block.) -/
def classifyError : AxiosFailure → Nat × String
  | .timeout => (504, "Request timeout. Please try again.")
  | .httpStatus status message statusText =>
      if status = 401 ∨ status = 403 then
        (403, "Authentication failed. Please check your API key.")
      else if status = 429 then
        (429, "Rate limit exceeded. Please try again later.")
      else (status, "API Error: " ++ jsOr message statusText)
  | .noResponse =>
      (503, "The USPTO API is currently unavailable. Please try again later.")
  | .other => (500, "An unknown server error occurred.")

/-- The value passed to `res.json` by the search route. -/
inductive SBody where
  | errObj (error : String)
  | successObj (patents : List AnalyzedPatent) (landscape : String)
      (total : Nat) (dataSource : String)
deriving DecidableEq

/-- A response of the search route: HTTP status plus JSON body. -/
structure SearchResponse where
  status : Nat
  body : SBody
deriving DecidableEq

/-- The `patents` array of a response (empty for error bodies). -/
def SearchResponse.patents : SearchResponse → List AnalyzedPatent
  | ⟨_, .successObj ps _ _ _⟩ => ps
  | ⟨_, .errObj _⟩ => []

/-- The POST /search route handler.  Oracles: `upstream` is the outcome of
the axios call inside `getUSPTOData`, `rands`/`today` the random ids and
current date, `ai p` the value and outbound-call count of the
`analyzePatentWithAI` call for `p`, `landscapeAI` likewise for
`analyzePatentLandscape`.  Besides the response it returns the total
number of outbound Gemini calls issued. -/
def handleSearch (usptoKey geminiKey : Bool) (keywords : Option String)
    (_maxResults : Nat)
    (upstream : Except AxiosFailure (Option (List UpstreamEntry)))
    (rands : Nat → String) (today : String)
    (ai : PatentRecord → String × Nat)
    (landscapeAI : List PatentRecord → String → String × Nat) :
    SearchResponse × Nat :=
  if !jsTruthy keywords || jsTrim (keywords.getD "") = "" then
    (⟨400, .errObj "No keywords provided."⟩, 0)
  else if usptoKey then
    let usptoData := getUSPTOData upstream rands today
    if usptoData.length > 0 then
      let enriched :=
        if geminiKey then
          (enrichPatents (fun p => (ai p).1) usptoData,
            ((usptoData.take 3).map (fun p => (ai p).2)).sum)
        else (usptoData.map (fun p => withAnalysis p aiNotConfiguredMsg), 0)
      let landscape :=
        if geminiKey then landscapeAI usptoData (keywords.getD "")
        else (landscapeNotConfiguredMsg, 0)
      (⟨200, .successObj enriched.1 landscape.1 usptoData.length "uspto"⟩,
        enriched.2 + landscape.2)
    else
      (⟨500,
        .errObj "USPTO API returned no results. Please try different keywords."⟩,
        0)
  else (⟨500, .errObj "USPTO API key not configured."⟩, 0)

end Server

/-! ## Supporting lemmas and sample data -/

/-- The length of a string built from an explicit character list. -/
theorem stringMk_length (l : List Char) : (⟨l⟩ : String).length = l.length := rfl

/-- `substring(0, n)` of a string no longer than `n` is the whole string. -/
theorem jsSubstring_of_le (s : String) (n : Nat) (h : s.length ≤ n) :
    jsSubstring s 0 n = s := by
  unfold jsSubstring
  rw [List.drop_zero, Nat.sub_zero, List.take_of_length_le h]

/-- The length of `substring(0, n)`. -/
theorem length_jsSubstring_zero (s : String) (n : Nat) :
    (jsSubstring s 0 n).length = min n s.length := by
  unfold jsSubstring
  rw [stringMk_length, List.drop_zero, Nat.sub_zero, List.length_take]
  rfl

/-- The enrichment fan-out preserves the number of records. -/
theorem enrichPatents_length (ai : Server.PatentRecord → String)
    (ps : List Server.PatentRecord) :
    (Server.enrichPatents ai ps).length = ps.length := by
  simp [Server.enrichPatents]
  omega

/-- Positional characterization of the enrichment fan-out: position `i`
holds the original record at `i` with the AI value attached when `i < 3`
and with the rate-limit placeholder otherwise. -/
theorem enrichPatents_getElem (ai : Server.PatentRecord → String)
    (ps : List Server.PatentRecord) (i : Nat) (h : i < ps.length)
    (h2 : i < (Server.enrichPatents ai ps).length) :
    (Server.enrichPatents ai ps)[i] =
      if i < 3 then Server.withAnalysis (ps[i]) (ai (ps[i]))
      else Server.withAnalysis (ps[i]) Server.rateLimitMsg := by
  rw [show (Server.enrichPatents ai ps)[i] =
      ((ps.take 3).map (fun p => Server.withAnalysis p (ai p)) ++
        (ps.drop 3).map (fun p => Server.withAnalysis p Server.rateLimitMsg))[i]
    from rfl]
  by_cases hi : i < 3
  · rw [if_pos hi, List.getElem_append_left (by simp [List.length_take]; omega)]
    rw [List.getElem_map, List.getElem_take]
  · have hlen :
        ((ps.take 3).map (fun p => Server.withAnalysis p (ai p))).length ≤ i := by
      simp [List.length_take]; omega
    rw [if_neg hi, List.getElem_append_right hlen]
    rw [List.getElem_map]
    congr 1
    rw [List.getElem_drop]
    congr 1
    simp [List.length_take]
    omega

/-- A concrete normalized record for instantiating the theorems. -/
def sampleRecord (n : String) : Server.PatentRecord :=
  ⟨n, n, "Widget press", "Jane Doe", "Acme Corp", "2024-01-01", "A press for widgets."⟩

/-! ## Claim C1 -/

/-- Claim C1: for a normalized result list of length N, with the AI
credential present the search route returns a list of the same length in
which each of the first min(N, 3) positions carries the original record
with the per-record AI analysis value attached, and each of the remaining
max(0, N - 3) positions carries the original record with the fixed
rate-limit placeholder string attached. -/
theorem C1_bounded_enrichment (ai : Server.PatentRecord → String)
    (ps : List Server.PatentRecord) :
    (Server.enrichPatents ai ps).length = ps.length ∧
    ∀ i : Nat, ∀ h : i < ps.length,
      (i < 3 →
        (Server.enrichPatents ai ps).get
            ⟨i, (enrichPatents_length ai ps).symm ▸ h⟩ =
          Server.withAnalysis (ps.get ⟨i, h⟩) (ai (ps.get ⟨i, h⟩))) ∧
      (3 ≤ i →
        (Server.enrichPatents ai ps).get
            ⟨i, (enrichPatents_length ai ps).symm ▸ h⟩ =
          Server.withAnalysis (ps.get ⟨i, h⟩) Server.rateLimitMsg) := by
  refine ⟨enrichPatents_length ai ps, fun i h => ⟨fun hi => ?_, fun hi => ?_⟩⟩
  · rw [List.get_eq_getElem, List.get_eq_getElem,
      enrichPatents_getElem ai ps i h
        (by rw [enrichPatents_length]; exact h), if_pos hi]
  · rw [List.get_eq_getElem, List.get_eq_getElem,
      enrichPatents_getElem ai ps i h
        (by rw [enrichPatents_length]; exact h), if_neg (by omega)]

/-- Witness for C1 at a concrete four-record list: position 0 gets the AI
value, position 3 the rate-limit placeholder. -/
theorem C1_witness :
    (Server.enrichPatents (fun _ => "AI text")
        [sampleRecord "1", sampleRecord "2", sampleRecord "3",
          sampleRecord "4"]).length = 4 ∧
    (Server.enrichPatents (fun _ => "AI text")
        [sampleRecord "1", sampleRecord "2", sampleRecord "3",
          sampleRecord "4"]).get ⟨0, by decide⟩ =
      Server.withAnalysis (sampleRecord "1") "AI text" ∧
    (Server.enrichPatents (fun _ => "AI text")
        [sampleRecord "1", sampleRecord "2", sampleRecord "3",
          sampleRecord "4"]).get ⟨3, by decide⟩ =
      Server.withAnalysis (sampleRecord "4") Server.rateLimitMsg := by
  have h := C1_bounded_enrichment (fun _ => "AI text")
    [sampleRecord "1", sampleRecord "2", sampleRecord "3", sampleRecord "4"]
  exact ⟨h.1, (h.2 0 (by decide)).1 (by decide), (h.2 3 (by decide)).2 (by decide)⟩

/-! ## Claim C9 -/

/-- Claim C9: enrichment builds a new record per input record; whatever its
analysis value, every upstream-sourced field of the record at position `i`
of the enriched list equals the corresponding field of the original record
at position `i`. -/
theorem C9_enrichment_frame (ai : Server.PatentRecord → String)
    (ps : List Server.PatentRecord) (i : Nat) (h : i < ps.length) :
    ((Server.enrichPatents ai ps).get
        ⟨i, (enrichPatents_length ai ps).symm ▸ h⟩).patent_id =
      (ps.get ⟨i, h⟩).patent_id ∧
    ((Server.enrichPatents ai ps).get
        ⟨i, (enrichPatents_length ai ps).symm ▸ h⟩).publication_number =
      (ps.get ⟨i, h⟩).publication_number ∧
    ((Server.enrichPatents ai ps).get
        ⟨i, (enrichPatents_length ai ps).symm ▸ h⟩).title =
      (ps.get ⟨i, h⟩).title ∧
    ((Server.enrichPatents ai ps).get
        ⟨i, (enrichPatents_length ai ps).symm ▸ h⟩).inventor =
      (ps.get ⟨i, h⟩).inventor ∧
    ((Server.enrichPatents ai ps).get
        ⟨i, (enrichPatents_length ai ps).symm ▸ h⟩).assignee =
      (ps.get ⟨i, h⟩).assignee ∧
    ((Server.enrichPatents ai ps).get
        ⟨i, (enrichPatents_length ai ps).symm ▸ h⟩).publication_date =
      (ps.get ⟨i, h⟩).publication_date ∧
    ((Server.enrichPatents ai ps).get
        ⟨i, (enrichPatents_length ai ps).symm ▸ h⟩).snippet =
      (ps.get ⟨i, h⟩).snippet := by
  have hq := enrichPatents_getElem ai ps i h
    (by rw [enrichPatents_length]; exact h)
  rw [List.get_eq_getElem, List.get_eq_getElem]
  by_cases hi : i < 3 <;>
    simp [hq, hi, Server.withAnalysis]

/-- Witness for C9 at a concrete list and index. -/
theorem C9_witness :
    ((Server.enrichPatents (fun _ => "AI text")
        [sampleRecord "1", sampleRecord "2"]).get ⟨1, by decide⟩).title =
      (sampleRecord "2").title ∧
    ((Server.enrichPatents (fun _ => "AI text")
        [sampleRecord "1", sampleRecord "2"]).get ⟨1, by decide⟩).snippet =
      (sampleRecord "2").snippet := by
  have h := C9_enrichment_frame (fun _ => "AI text")
    [sampleRecord "1", sampleRecord "2"] 1 (by decide)
  exact ⟨h.2.2.1, h.2.2.2.2.2.2⟩

/-! ## Claim C7 -/

/-- Claim C7: with the Gemini credential absent, the search route issues
zero outbound AI calls and every record of the returned patents array
carries the fixed not-configured placeholder as its analysis field. -/
theorem C7_no_ai_key_placeholders (usptoKey : Bool) (keywords : Option String)
    (maxResults : Nat)
    (upstream : Except Server.AxiosFailure (Option (List Server.UpstreamEntry)))
    (rands : Nat → String) (today : String)
    (ai : Server.PatentRecord → String × Nat)
    (landscapeAI : List Server.PatentRecord → String → String × Nat) :
    (Server.handleSearch usptoKey false keywords maxResults upstream rands today
        ai landscapeAI).2 = 0 ∧
    ∀ q ∈ (Server.handleSearch usptoKey false keywords maxResults upstream rands
        today ai landscapeAI).1.patents,
      q.analysis = Server.aiNotConfiguredMsg := by
  by_cases h1 : (!jsTruthy keywords || jsTrim (keywords.getD "") = "") = true
  · simp [Server.handleSearch, h1, Server.SearchResponse.patents]
  · by_cases h2 : usptoKey = true
    · by_cases h3 : (Server.getUSPTOData upstream rands today).length > 0
      · constructor
        · simp [Server.handleSearch, h1, h2, h3]
        · intro q hq
          simp only [Server.handleSearch, h1, h2, h3, Bool.false_eq_true,
            if_false, if_true, Server.SearchResponse.patents, List.mem_map,
            Bool.not_eq_true, if_neg, eq_self_iff_true] at hq
          obtain ⟨p, _, rfl⟩ := hq
          rfl
      · constructor
        · simp [Server.handleSearch, h1, h2, h3]
        · intro q hq
          simp [Server.handleSearch, h1, h2, h3,
            Server.SearchResponse.patents] at hq
    · constructor
      · simp [Server.handleSearch, h1, h2]
      · intro q hq
        simp [Server.handleSearch, h1, h2, Server.SearchResponse.patents] at hq

/-- Witness for C7 at a concrete request whose upstream returns one entry:
no AI call is made and the returned record carries the placeholder. -/
theorem C7_witness :
    (Server.handleSearch true false (some "laser") 20
        (.ok (some [Server.UpstreamEntry.mk none none])) (fun _ => "1234567")
        "2026-10-11" (fun _ => ("unused", 5)) (fun _ _ => ("unused", 7))).2 = 0 ∧
    (Server.withAnalysis
        (Server.normalizeEntry "1234567" "2026-10-11"
          (Server.UpstreamEntry.mk none none))
        Server.aiNotConfiguredMsg).analysis = Server.aiNotConfiguredMsg := by
  have h := C7_no_ai_key_placeholders true (some "laser") 20
    (.ok (some [Server.UpstreamEntry.mk none none])) (fun _ => "1234567")
    "2026-10-11" (fun _ => ("unused", 5)) (fun _ _ => ("unused", 7))
  exact ⟨h.1, h.2 _ (by decide)⟩

/-! ## Claim C2 -/

/-- Claim C2 as stated is refuted by a failing first call: with an empty
cache and an external service that throws on the first call and succeeds
on the second, two invocations of the per-record analysis on the same
record issue two outbound calls and return different strings, because a
failure is not cached. -/
theorem C2_counterexample :
    ((Server.analyzePatentWithAI true
        (fun n => if n = 0 then none else some "OK analysis")
        (sampleRecord "US1")
        (Server.analyzePatentWithAI true
          (fun n => if n = 0 then none else some "OK analysis")
          (sampleRecord "US1") ⟨[], 0⟩).2).2.calls = 2) ∧
    (Server.analyzePatentWithAI true
        (fun n => if n = 0 then none else some "OK analysis")
        (sampleRecord "US1") ⟨[], 0⟩).1 ≠
      (Server.analyzePatentWithAI true
        (fun n => if n = 0 then none else some "OK analysis")
        (sampleRecord "US1")
        (Server.analyzePatentWithAI true
          (fun n => if n = 0 then none else some "OK analysis")
          (sampleRecord "US1") ⟨[], 0⟩).2).1 := by decide

/-- Claim C2 amended: provided the external service does not throw (the
no-key and cache-hit paths need no such proviso), calling the per-record
analysis twice with byte-identical record content returns the same output
both times, the second invocation issues no outbound call (it is served
from the cache keyed by the canonical serialization of the record), and
the pair issues at most one outbound call beyond the initial state. -/
theorem C2_cache_idempotent (geminiKey : Bool) (gemini : Nat → Option String)
    (p : Server.PatentRecord) (st : Server.AIState)
    (hok : ∀ n, (gemini n).isSome) :
    (Server.analyzePatentWithAI geminiKey gemini p
        (Server.analyzePatentWithAI geminiKey gemini p st).2).1 =
      (Server.analyzePatentWithAI geminiKey gemini p st).1 ∧
    (Server.analyzePatentWithAI geminiKey gemini p
        (Server.analyzePatentWithAI geminiKey gemini p st).2).2.calls =
      (Server.analyzePatentWithAI geminiKey gemini p st).2.calls ∧
    (Server.analyzePatentWithAI geminiKey gemini p st).2.calls ≤ st.calls + 1 := by
  cases geminiKey with
  | false => exact ⟨rfl, rfl, Nat.le_succ _⟩
  | true =>
    unfold Server.analyzePatentWithAI
    cases hcc : Server.lookupCache st.cache (Server.cacheKey p) with
    | some v => simp [hcc]
    | none =>
      obtain ⟨a, ha⟩ := Option.isSome_iff_exists.mp (hok st.calls)
      simp [hcc, ha, Server.lookupCache]

/-- Witness for C2 amended at a concrete record, empty cache and an
always-succeeding service. -/
theorem C2_witness :
    (Server.analyzePatentWithAI true (fun _ => some "Detailed analysis")
        (sampleRecord "US2")
        (Server.analyzePatentWithAI true (fun _ => some "Detailed analysis")
          (sampleRecord "US2") ⟨[], 0⟩).2).1 =
      (Server.analyzePatentWithAI true (fun _ => some "Detailed analysis")
        (sampleRecord "US2") ⟨[], 0⟩).1 ∧
    (Server.analyzePatentWithAI true (fun _ => some "Detailed analysis")
        (sampleRecord "US2")
        (Server.analyzePatentWithAI true (fun _ => some "Detailed analysis")
          (sampleRecord "US2") ⟨[], 0⟩).2).2.calls =
      (Server.analyzePatentWithAI true (fun _ => some "Detailed analysis")
        (sampleRecord "US2") ⟨[], 0⟩).2.calls ∧
    (Server.analyzePatentWithAI true (fun _ => some "Detailed analysis")
        (sampleRecord "US2") ⟨[], 0⟩).2.calls ≤ 0 + 1 :=
  C2_cache_idempotent true (fun _ => some "Detailed analysis")
    (sampleRecord "US2") ⟨[], 0⟩ (fun _ => rfl)

/-! ## Claim C3 -/

/-- Claim C3: when the AI response text contains no brace-delimited
substring that parses as JSON, the structured analysis returns — without
any failure path — the fallback object, which carries the raw response
text under rawAnalysis and every required schema key populated with its
fallback value. -/
theorem C3_parse_fallback (parse : String → Bool) (text searchTerm : String)
    (patents : List Netlify.PatentRecord) (hne : patents.isEmpty = false)
    (hparse : ∀ m, Netlify.braceMatch text = some m → parse m = false) :
    Netlify.generatePracticalAnalysis true (.ok text) parse patents searchTerm =
      .obj (Netlify.parseFallback text searchTerm patents) ∧
    (Netlify.parseFallback text searchTerm patents).rawAnalysis = some text ∧
    (Netlify.parseFallback text searchTerm patents).techBreakdown =
      [⟨"Technology Analysis", jsSubstring text 0 300, "See detailed analysis"⟩] ∧
    (Netlify.parseFallback text searchTerm patents).competitorActivity.filingPatterns =
      "Detailed analysis available below" ∧
    (Netlify.parseFallback text searchTerm patents).practicalUses =
      [⟨searchTerm ++ " applications", "Assessment in progress",
        "See analysis details"⟩] ∧
    (Netlify.parseFallback text searchTerm patents).techMaturity =
      "Analysis in progress" ∧
    (Netlify.parseFallback text searchTerm patents).interestingFindings =
      ["Detailed analysis available"] ∧
    (Netlify.parseFallback text searchTerm patents).patentStrength =
      "Requires claim review" := by
  refine ⟨?_, rfl, rfl, rfl, rfl, rfl, rfl, rfl⟩
  unfold Netlify.generatePracticalAnalysis
  rw [if_neg (by simp [hne])]
  cases hb : Netlify.braceMatch text with
  | none => simp [hb]
  | some m => simp [hb, hparse m hb]

/-- Witness for C3: a braceless response text with a parse oracle that
rejects everything. -/
theorem C3_witness :
    Netlify.generatePracticalAnalysis true (.ok "plain text answer")
        (fun _ => false) [Netlify.normalizeEntry "t" Netlify.emptyEntry]
        "laser" =
      .obj (Netlify.parseFallback "plain text answer" "laser"
        [Netlify.normalizeEntry "t" Netlify.emptyEntry]) ∧
    (Netlify.parseFallback "plain text answer" "laser"
        [Netlify.normalizeEntry "t" Netlify.emptyEntry]).rawAnalysis =
      some "plain text answer" := by
  have h := C3_parse_fallback (fun _ => false) "plain text answer" "laser"
    [Netlify.normalizeEntry "t" Netlify.emptyEntry] rfl (fun _ _ => rfl)
  exact ⟨h.1, h.2.1⟩

/-! ## Claim C10 -/

/-- Claim C10: a serverless request whose method is neither POST nor
OPTIONS is answered 405 with the method-not-allowed error body, with zero
upstream and zero AI calls; an OPTIONS request is answered 200 with the
fixed CORS headers and an empty body, likewise without any call. -/
theorem C10_method_dispatch (m : String) (pb : Except String Netlify.ReqBody)
    (usptoKey geminiKey : Bool) (fetch : Netlify.FetchOutcome)
    (tempIds : Nat → String) (timestamp : String)
    (genOutcome : Except String String) (parse : String → Bool)
    (hOpt : m ≠ "OPTIONS") (hPost : m ≠ "POST") :
    Netlify.handler m pb usptoKey geminiKey fetch tempIds timestamp genOutcome
        parse =
      (⟨405, Netlify.corsHeaders, .errObj "Method not allowed"⟩, 0, 0) ∧
    Netlify.handler "OPTIONS" pb usptoKey geminiKey fetch tempIds timestamp
        genOutcome parse =
      (⟨200, Netlify.corsHeaders, .empty⟩, 0, 0) := by
  constructor
  · unfold Netlify.handler
    rw [if_neg hOpt, if_pos hPost]
  · rfl

/-- Witness for C10 at the GET method. -/
theorem C10_witness :
    Netlify.handler "GET" (.ok ⟨some "laser", 20, false⟩) true true (.ok none)
        (fun _ => "1") "2026-10-11T00:00:00.000Z" (.ok "") (fun _ => false) =
      (⟨405, Netlify.corsHeaders, .errObj "Method not allowed"⟩, 0, 0) ∧
    Netlify.handler "OPTIONS" (.ok ⟨some "laser", 20, false⟩) true true
        (.ok none) (fun _ => "1") "2026-10-11T00:00:00.000Z" (.ok "")
        (fun _ => false) =
      (⟨200, Netlify.corsHeaders, .empty⟩, 0, 0) :=
  C10_method_dispatch "GET" (.ok ⟨some "laser", 20, false⟩) true true (.ok none)
    (fun _ => "1") "2026-10-11T00:00:00.000Z" (.ok "") (fun _ => false)
    (by decide) (by decide)

/-! ## Claim C4 -/

/-- A 300-character abstract for exercising the truncation boundary. -/
def longAbstract : String := ⟨List.replicate 300 'a'⟩

set_option maxRecDepth 8000 in
/-- Claim C4 as stated fails on the server variant: its normalization puts
the raw upstream abstract text into snippet without any truncation, so a
300-character abstract yields a 300-character snippet rather than the
200-character prefix followed by an ellipsis. -/
theorem C4_counterexample :
    (Server.normalizeEntry "1234567" "2026-10-11"
        ⟨some "18000000",
          some ⟨none, .absent, none, none, none, some longAbstract⟩⟩).snippet =
      longAbstract ∧
    200 < longAbstract.length ∧
    (Server.normalizeEntry "1234567" "2026-10-11"
        ⟨some "18000000",
          some ⟨none, .absent, none, none, none, some longAbstract⟩⟩).snippet ≠
      jsSubstring longAbstract 0 200 ++ "..." := by decide

/-- Claim C4 amended: in the serverless variant, a normalized record whose
abstract exceeds 200 characters has as snippet the first 200 characters of
the abstract followed by an ellipsis (203 characters in total), and
otherwise its snippet equals the abstract; the server variant has no
abstract field and stores the upstream abstract text in snippet
untruncated. -/
theorem C4_snippet_truncation (tempId : String) (e : Netlify.UpstreamEntry)
    (rand today a : String) (se : Server.UpstreamEntry)
    (hse : (se.applicationMetaData.getD Server.emptyMeta).abstractText = some a)
    (ha : a ≠ "") :
    (200 < (Netlify.normalizeEntry tempId e).abstract.length →
      (Netlify.normalizeEntry tempId e).snippet =
        jsSubstring (Netlify.normalizeEntry tempId e).abstract 0 200 ++ "..." ∧
      (Netlify.normalizeEntry tempId e).snippet.length = 203) ∧
    ((Netlify.normalizeEntry tempId e).abstract.length ≤ 200 →
      (Netlify.normalizeEntry tempId e).snippet =
        (Netlify.normalizeEntry tempId e).abstract) ∧
    (Server.normalizeEntry rand today se).snippet = a := by
  have hsnip : (Netlify.normalizeEntry tempId e).snippet =
      jsSubstring (Netlify.normalizeEntry tempId e).abstract 0 200 ++
        (if (Netlify.normalizeEntry tempId e).abstract.length > 200 then "..."
          else "") := rfl
  refine ⟨fun h => ⟨?_, ?_⟩, fun h => ?_, ?_⟩
  · rw [hsnip, if_pos h]
  · rw [hsnip, if_pos h, String.length_append, length_jsSubstring_zero]
    have hm : min 200 (Netlify.normalizeEntry tempId e).abstract.length = 200 := by
      omega
    rw [hm]
    decide
  · rw [hsnip, if_neg (by omega), jsSubstring_of_le _ _ h]
    simp
  · have hs : (Server.normalizeEntry rand today se).snippet =
        jsOr (se.applicationMetaData.getD Server.emptyMeta).abstractText
          "No abstract available." := rfl
    rw [hs, hse]
    simp [jsOr, ha]

set_option maxRecDepth 8000 in
/-- Witness for C4 amended: a 201-character abstract is truncated to 203
characters, a short abstract is passed through, and the server variant
passes the abstract text straight into snippet. -/
theorem C4_witness :
    (Netlify.normalizeEntry "t"
        ⟨some "18000001", none,
          some ⟨some ⟨List.replicate 201 'a'⟩, none⟩, none⟩).snippet.length =
      203 ∧
    (Netlify.normalizeEntry "t"
        ⟨some "18000002", none, some ⟨some "A short abstract.", none⟩,
          none⟩).snippet =
      (Netlify.normalizeEntry "t"
        ⟨some "18000002", none, some ⟨some "A short abstract.", none⟩,
          none⟩).abstract ∧
    (Server.normalizeEntry "1" "2026-10-11"
        ⟨some "18000003",
          some ⟨none, .absent, none, none, none, some "An abstract."⟩⟩).snippet =
      "An abstract." := by
  refine ⟨((C4_snippet_truncation "t"
      ⟨some "18000001", none, some ⟨some ⟨List.replicate 201 'a'⟩, none⟩, none⟩
      "1" "2026-10-11" "An abstract."
      ⟨some "18000003",
        some ⟨none, .absent, none, none, none, some "An abstract."⟩⟩
      rfl (by decide)).1 (by decide)).2, ?_, ?_⟩
  · exact (C4_snippet_truncation "t"
      ⟨some "18000002", none, some ⟨some "A short abstract.", none⟩, none⟩
      "1" "2026-10-11" "An abstract."
      ⟨some "18000003",
        some ⟨none, .absent, none, none, none, some "An abstract."⟩⟩
      rfl (by decide)).2.1 (by decide)
  · exact (C4_snippet_truncation "t"
      ⟨some "18000002", none, some ⟨some "A short abstract.", none⟩, none⟩
      "1" "2026-10-11" "An abstract."
      ⟨some "18000003",
        some ⟨none, .absent, none, none, none, some "An abstract."⟩⟩
      rfl (by decide)).2.2

/-! ## Claim C5 -/

/-- Claim C5 as stated fails on the server variant: an entry with no filing
date is normalized with the current date as publication date, not with the
documented default string. -/
theorem C5_counterexample :
    (Server.normalizeEntry "1234567" "2026-10-11"
        ⟨some "18000000", none⟩).publication_date = "2026-10-11" ∧
    ("2026-10-11" : String) ≠ "Unknown" := by decide

/-- Claim C5 amended: every missing optional upstream field is replaced by
its documented default in the normalized record — publication number N/A,
title/abstract placeholders, Unknown for inventor, assignee, dates, status
and classification — in the serverless variant; the server variant does the
same for its fields except that a missing filing date yields the current
date rather than Unknown in publication date.  No field is ever absent. -/
theorem C5_missing_field_defaults (tempId : String) (e : Netlify.UpstreamEntry)
    (rand today : String) (se : Server.UpstreamEntry) :
    (e.applicationNumberText = none →
      (Netlify.normalizeEntry tempId e).publication_number = "N/A" ∧
      (Netlify.normalizeEntry tempId e).patent_id = "temp-" ++ tempId) ∧
    ((e.applicationMetaData.getD Netlify.emptyMeta).inventionTitle = none →
      (Netlify.normalizeEntry tempId e).title = "Title not available") ∧
    ((e.applicationMetaData.getD Netlify.emptyMeta).inventorBag = none →
      (Netlify.normalizeEntry tempId e).inventor = "Unknown" ∧
      (Netlify.normalizeEntry tempId e).inventors_detailed = []) ∧
    ((e.applicationMetaData.getD Netlify.emptyMeta).applicantBag = none →
      (Netlify.normalizeEntry tempId e).assignee = "Unknown" ∧
      (Netlify.normalizeEntry tempId e).assignees_detailed = []) ∧
    ((e.applicationMetaData.getD Netlify.emptyMeta).publicationDate = none →
      (e.patentApplicationPublication.getD
          Netlify.emptyPublication).publicationDate = none →
      (e.applicationMetaData.getD Netlify.emptyMeta).filingDate = none →
      (Netlify.normalizeEntry tempId e).publication_date = "Unknown") ∧
    ((e.applicationMetaData.getD Netlify.emptyMeta).filingDate = none →
      (Netlify.normalizeEntry tempId e).filing_date = "Unknown") ∧
    ((e.patentApplicationPublication.getD Netlify.emptyPublication).abstract =
        none →
      (e.patentGrant.getD Netlify.emptyGrant).abstract = none →
      (e.applicationMetaData.getD Netlify.emptyMeta).inventionTitle = none →
      (Netlify.normalizeEntry tempId e).abstract = "Abstract not available") ∧
    ((e.applicationMetaData.getD
          Netlify.emptyMeta).applicationStatusDescriptionText = none →
      (Netlify.normalizeEntry tempId e).status = "Unknown") ∧
    ((e.applicationMetaData.getD Netlify.emptyMeta).uspcSymbolText = none →
      (Netlify.normalizeEntry tempId e).classification.primary = "Unknown") ∧
    ((e.applicationMetaData.getD Netlify.emptyMeta).cpcClassificationBag =
        none →
      (Netlify.normalizeEntry tempId e).classification.ipc = "Unknown") ∧
    (se.applicationNumberText = none →
      (Server.normalizeEntry rand today se).patent_id = "US" ++ rand ∧
      (Server.normalizeEntry rand today se).publication_number = "N/A") ∧
    ((se.applicationMetaData.getD Server.emptyMeta).inventionTitle = none →
      (Server.normalizeEntry rand today se).title = "Untitled Patent") ∧
    ((se.applicationMetaData.getD Server.emptyMeta).inventorName = .absent →
      (Server.normalizeEntry rand today se).inventor = "Unknown") ∧
    ((se.applicationMetaData.getD Server.emptyMeta).assigneeName = none →
      (se.applicationMetaData.getD Server.emptyMeta).assignee = none →
      (Server.normalizeEntry rand today se).assignee = "Unknown") ∧
    ((se.applicationMetaData.getD Server.emptyMeta).abstractText = none →
      (Server.normalizeEntry rand today se).snippet =
        "No abstract available.") ∧
    ((se.applicationMetaData.getD Server.emptyMeta).filingDate = none →
      (Server.normalizeEntry rand today se).publication_date = today) := by
  refine ⟨?_, ?_, ?_, ?_, ?_, ?_, ?_, ?_, ?_, ?_, ?_, ?_, ?_, ?_, ?_, ?_⟩
  · intro h
    exact ⟨by simp [Netlify.normalizeEntry, jsOr, h],
      by simp [Netlify.normalizeEntry, jsOr, h]⟩
  · intro h
    simp [Netlify.normalizeEntry, jsOr, h]
  · intro h
    exact ⟨by simp [Netlify.normalizeEntry, Netlify.inventorsOf, h],
      by simp [Netlify.normalizeEntry, Netlify.inventorsOf, h]⟩
  · intro h
    exact ⟨by simp [Netlify.normalizeEntry, Netlify.assigneesOf, h],
      by simp [Netlify.normalizeEntry, Netlify.assigneesOf, h]⟩
  · intro h1 h2 h3
    simp [Netlify.normalizeEntry, jsOr, jsOrO, h1, h2, h3]
  · intro h
    simp [Netlify.normalizeEntry, jsOr, h]
  · intro h1 h2 h3
    simp [Netlify.normalizeEntry, Netlify.abstractOf, jsTruthy, h1, h2, h3]
  · intro h
    simp [Netlify.normalizeEntry, jsOr, h]
  · intro h
    simp [Netlify.normalizeEntry, jsOr, h]
  · intro h
    simp [Netlify.normalizeEntry, h]
  · intro h
    exact ⟨by simp [Server.normalizeEntry, jsOr, h],
      by simp [Server.normalizeEntry, jsOr, h]⟩
  · intro h
    simp [Server.normalizeEntry, jsOr, h]
  · intro h
    simp [Server.normalizeEntry, Server.inventorsOf, h]
  · intro h1 h2
    simp [Server.normalizeEntry, Server.assigneeOf, jsTruthy, h1, h2]
  · intro h
    simp [Server.normalizeEntry, jsOr, h]
  · intro h
    simp [Server.normalizeEntry, jsOr, h]

/-- Witness for C5 amended at entries with every optional field absent. -/
theorem C5_witness :
    (Netlify.normalizeEntry "x" Netlify.emptyEntry).publication_number =
      "N/A" ∧
    (Netlify.normalizeEntry "x" Netlify.emptyEntry).title =
      "Title not available" ∧
    (Netlify.normalizeEntry "x" Netlify.emptyEntry).inventor = "Unknown" ∧
    (Netlify.normalizeEntry "x" Netlify.emptyEntry).assignee = "Unknown" ∧
    (Netlify.normalizeEntry "x" Netlify.emptyEntry).publication_date =
      "Unknown" ∧
    (Netlify.normalizeEntry "x" Netlify.emptyEntry).filing_date = "Unknown" ∧
    (Netlify.normalizeEntry "x" Netlify.emptyEntry).abstract =
      "Abstract not available" ∧
    (Netlify.normalizeEntry "x" Netlify.emptyEntry).status = "Unknown" ∧
    (Server.normalizeEntry "1" "2026-10-11"
        ⟨none, none⟩).publication_date = "2026-10-11" ∧
    (Server.normalizeEntry "1" "2026-10-11" ⟨none, none⟩).title =
      "Untitled Patent" ∧
    (Server.normalizeEntry "1" "2026-10-11" ⟨none, none⟩).inventor =
      "Unknown" := by
  obtain ⟨n1, n2, n3, n4, n5, n6, n7, n8, _, _, _, s12, s13, _, _, s16⟩ :=
    C5_missing_field_defaults "x" Netlify.emptyEntry "1" "2026-10-11"
      ⟨none, none⟩
  exact ⟨(n1 rfl).1, n2 rfl, (n3 rfl).1, (n4 rfl).1, n5 rfl rfl rfl, n6 rfl,
    n7 rfl rfl rfl, n8 rfl, s16 rfl, s12 rfl, s13 rfl⟩

/-! ## Claim C8 -/

/-- Claim C8 as stated fails on the server variant: the limit it sends to
the upstream service is the caller-requested value itself, with no clamping
to 25. -/
theorem C8_counterexample :
    (Server.searchParams "laser" 100).limit = 100 ∧
    (Server.searchParams "laser" 100).limit ≠ 25 := by decide

/-- Claim C8 amended: the serverless variant clamps the limit sent upstream
to at most 25 (the requested value when it is at most 25, and 25
otherwise); the server variant sends the caller-requested value through
unclamped. -/
theorem C8_limit_clamping (keywords : String) (maxResults : Nat)
    (showApproved : Bool) (today : String) :
    (Netlify.searchPayload keywords maxResults showApproved
        today).pagination.limit ≤ 25 ∧
    (maxResults ≤ 25 →
      (Netlify.searchPayload keywords maxResults showApproved
          today).pagination.limit = maxResults) ∧
    (25 ≤ maxResults →
      (Netlify.searchPayload keywords maxResults showApproved
          today).pagination.limit = 25) ∧
    (Server.searchParams keywords maxResults).limit = maxResults := by
  refine ⟨?_, fun h => ?_, fun h => ?_, rfl⟩
  · exact Nat.min_le_right maxResults 25
  · exact Nat.min_eq_left h
  · exact Nat.min_eq_right h

/-- Witness for C8 amended at requested limits 10 and 100. -/
theorem C8_witness :
    (Netlify.searchPayload "laser" 100 false "2026-10-11").pagination.limit =
      25 ∧
    (Netlify.searchPayload "laser" 10 false "2026-10-11").pagination.limit =
      10 ∧
    (Server.searchParams "laser" 100).limit = 100 :=
  ⟨(C8_limit_clamping "laser" 100 false "2026-10-11").2.2.1 (by decide),
    (C8_limit_clamping "laser" 10 false "2026-10-11").2.1 (by decide),
    (C8_limit_clamping "laser" 100 false "2026-10-11").2.2.2⟩

/-! ## Claim C6 -/

/-- Claim C6 identifies a code bug: with both credentials configured and
valid keywords, an upstream HTTP 429 (resp. 401) does not surface as 429
(resp. 403).  The server getUSPTOData swallows the error and returns the
empty list, so the route answers 500 with the no-results message, even
though its own catch block (classifyError) would map 429 to 429 and 401 to
403 had the error reached it; the serverless variant wraps the failure and
answers 500 as well. -/
theorem C6_upstream_status_swallowed :
    (Server.handleSearch true true (some "laser") 20
        (.error (.httpStatus 429 none "Too Many Requests")) (fun _ => "1")
        "2026-10-11" (fun _ => ("", 0)) (fun _ _ => ("", 0))).1 =
      ⟨500,
        .errObj "USPTO API returned no results. Please try different keywords."⟩ ∧
    (Server.handleSearch true true (some "laser") 20
        (.error (.httpStatus 401 none "Unauthorized")) (fun _ => "1")
        "2026-10-11" (fun _ => ("", 0)) (fun _ _ => ("", 0))).1 =
      ⟨500,
        .errObj "USPTO API returned no results. Please try different keywords."⟩ ∧
    Server.classifyError (.httpStatus 429 none "Too Many Requests") =
      (429, "Rate limit exceeded. Please try again later.") ∧
    Server.classifyError (.httpStatus 401 none "Unauthorized") =
      (403, "Authentication failed. Please check your API key.") ∧
    (Netlify.handler "POST" (.ok ⟨some "laser", 20, false⟩) true true
        (.httpError 429 "Too Many Requests") (fun _ => "1")
        "2026-10-11T00:00:00.000Z" (.ok "") (fun _ => false)).1 =
      ⟨500, Netlify.corsHeaders,
        .errObj
          "Search failed: Failed to fetch patent data: USPTO API error: 429 Too Many Requests"⟩ := by
  decide
